import Mathlib

/-!
Verification development for the data-pipeline repository
(`test_code4.py`, `test_code2.py`, `test_code1.py`, `piping_data.py`).

The embedding models:
* the cleaning step of `test_code4.py` (null-value handling, lines 237-271,
  followed by duplicate handling, lines 287-294), and the variant ordering of
  `test_code2.py` (duplicate handling, lines 79-86, followed by null-value
  handling, lines 88-103);
* the column-type heuristic `suggest_dtype` of `test_code4.py`, lines 307-330;
* the chart-rendering loop of `test_code4.py`, lines 390-409.

Cells of a data frame are `Option Value`: `none` is the pandas missing marker
(`NaN`/`None`), `some v` a stored value.  A column carries its pandas dtype as
metadata, since `suggest_dtype` and `select_dtypes` branch on it.
-/

namespace DataPipeline

/-- Pandas dtypes that occur in the app's data frames. -/
inductive Dtype where
  | int64
  | float64
  | datetime64
  | boolDt
  | objectDt
deriving DecidableEq

/-- A Python cell value as stored in an object column: int, float (modelled
exactly as a rational), str, or bool. -/
inductive Value where
  | int (i : Int)
  | real (q : Rat)
  | str (s : String)
  | boolV (b : Bool)
deriving DecidableEq

/-- One named column of a data frame: a name, its pandas dtype, and the cells
(`none` = missing). -/
structure NamedCol where
  name : String
  dtype : Dtype
  cells : List (Option Value)
deriving DecidableEq

/-- A data frame, column-major; all columns have equal length in well-formed
frames. -/
def DataFrame := List NamedCol

instance : DecidableEq DataFrame := by
  unfold DataFrame
  infer_instance

/-- Number of rows of a data frame (length of its first column). -/
def nRows (df : DataFrame) : Nat :=
  match df with
  | [] => 0
  | c :: _ => c.cells.length

/-- The cells of row `i`, one per column (out-of-range reads give `none`,
which never happens on well-formed frames). -/
def rowCells (df : DataFrame) (i : Nat) : List (Option Value) :=
  df.map (fun c => c.cells.getD i none)

/-- The cells of row `i` restricted to the columns whose name is in `names`
(models `drop_duplicates(subset=...)` comparison keys). -/
def rowCellsSub (df : DataFrame) (names : List String) (i : Nat) :
    List (Option Value) :=
  (df.filter (fun c => names.contains c.name)).map (fun c => c.cells.getD i none)

/-- Restrict every column of `df` to the row indices in `idxs` (in order). -/
def selectRows (df : DataFrame) (idxs : List Nat) : DataFrame :=
  df.map (fun c => { c with cells := idxs.map (fun i => c.cells.getD i none) })

/-- `df.dropna(how="any")`: keep only rows with no missing cell. -/
def dropAnyNull (df : DataFrame) : DataFrame :=
  selectRows df ((List.range (nRows df)).filter
    (fun i => (rowCells df i).all Option.isSome))

/-- `df.dropna(how="all")`: keep only rows with at least one non-missing
cell. -/
def dropAllNull (df : DataFrame) : DataFrame :=
  selectRows df ((List.range (nRows df)).filter
    (fun i => (rowCells df i).any Option.isSome))

/-- `df.drop_duplicates(keep="first")`: keep row `i` iff no earlier row has
the same cells; pandas compares missing cells as equal. -/
def dropDupKeepFirst (df : DataFrame) : DataFrame :=
  selectRows df ((List.range (nRows df)).filter
    (fun i => (List.range i).all (fun j => rowCells df j != rowCells df i)))

/-- `df.drop_duplicates(keep="last")`: keep row `i` iff no later row has the
same cells. -/
def dropDupKeepLast (df : DataFrame) : DataFrame :=
  selectRows df ((List.range (nRows df)).filter
    (fun i => (List.range (nRows df)).all
      (fun j => j ≤ i || rowCells df j != rowCells df i)))

/-- `df.drop_duplicates(subset=names, keep="first")`. -/
def dropDupSubset (df : DataFrame) (names : List String) : DataFrame :=
  selectRows df ((List.range (nRows df)).filter
    (fun i => (List.range i).all
      (fun j => rowCellsSub df names j != rowCellsSub df names i)))

/-- The non-missing values of a list of cells (`Series.dropna()`). -/
def nonMissing (cells : List (Option Value)) : List Value :=
  cells.filterMap id

/-- Replace every missing cell with `v` (`Series.fillna(v)`). -/
def fillWith (v : Value) (cells : List (Option Value)) : List (Option Value) :=
  cells.map (fun c => some (c.getD v))

/-- Numeric reading of a value, for mean/median over numeric columns. -/
def valAsRat : Value → Option Rat
  | .int i => some (i : Rat)
  | .real q => some q
  | _ => none

/-- Insert into a sorted list of rationals. -/
def insertSorted (q : Rat) : List Rat → List Rat
  | [] => [q]
  | x :: xs => if q ≤ x then q :: x :: xs else x :: insertSorted q xs

/-- Sort a list of rationals ascending. -/
def sortRats (l : List Rat) : List Rat :=
  l.foldr insertSorted []

/-- Models `Series.mean()` over the non-missing numeric values: `none` when
there are none (pandas yields NaN, so the subsequent `fillna` is a no-op). -/
def colMean (cells : List (Option Value)) : Option Rat :=
  let xs := (nonMissing cells).filterMap valAsRat
  if xs.length = 0 then none else some (xs.sum / (xs.length : Rat))

/-- Models `Series.median()` over the non-missing numeric values. -/
def colMedian (cells : List (Option Value)) : Option Rat :=
  let xs := sortRats ((nonMissing cells).filterMap valAsRat)
  let n := xs.length
  if n = 0 then none
  else if n % 2 = 1 then some (xs.getD (n / 2) 0)
  else some ((xs.getD (n / 2 - 1) 0 + xs.getD (n / 2) 0) / 2)

/-- First maximiser of `f` in a list (earliest element wins ties). -/
def maxBy (f : Value → Nat) : List Value → Option Value
  | [] => none
  | v :: rest =>
    match maxBy f rest with
    | none => some v
    | some b => if f b ≤ f v then some v else some b

/-- Models `Series.mode()[0]`: a most-frequent value among the non-missing
values (the external pandas call sorts tied candidates; ties are resolved
here by first occurrence, which the claims do not distinguish). -/
def pdMode (vs : List Value) : Option Value :=
  maxBy (fun v => vs.count v) vs

/-- `select_dtypes(include=["number"])` membership: int64 and float64. -/
def isNumberDtype : Dtype → Bool
  | .int64 => true
  | .float64 => true
  | _ => false

/-- The `Fill with column mean` branch applied to one numeric column:
`df[col] = df[col].fillna(df[col].mean())`. -/
def fillMeanCol (cells : List (Option Value)) : List (Option Value) :=
  match colMean cells with
  | none => cells
  | some m => fillWith (.real m) cells

/-- The `Fill with column median` branch applied to one numeric column. -/
def fillMedianCol (cells : List (Option Value)) : List (Option Value) :=
  match colMedian cells with
  | none => cells
  | some m => fillWith (.real m) cells

/-- The `Fill with column mode` branch applied to one column
(`test_code4.py` lines 247-253): only columns with at least one null are
touched; `mode()[0]` on an all-missing column raises and the `except` leaves
the column unchanged. -/
def fillModeCol (cells : List (Option Value)) : List (Option Value) :=
  if cells.any (fun c => c.isNone) then
    match pdMode (nonMissing cells) with
    | some m => fillWith m cells
    | none => cells
  else cells

/-- Python runtime types that occur as cell values. -/
inductive PyTy where
  | pyInt
  | pyFloat
  | pyStr
  | pyBool
deriving DecidableEq

/-- `type(v)` for a cell value. -/
def pyTypeOf : Value → PyTy
  | .int _ => .pyInt
  | .real _ => .pyFloat
  | .str _ => .pyStr
  | .boolV _ => .pyBool

/-- Digits of a string prefix as a natural number, `none` if empty or
non-digit. -/
def digitsToNat (cs : List Char) : Option Nat :=
  if cs ≠ [] ∧ cs.all Char.isDigit then
    some (cs.foldl (fun acc c => 10 * acc + (c.toNat - 48)) 0)
  else none

/-- Models the Python built-in `int(s)`: optional sign followed by digits
(surrounding whitespace and underscore separators are not modelled; the
claims do not exercise them). -/
def pyParseInt (s : String) : Option Int :=
  match s.toList with
  | '-' :: rest => (digitsToNat rest).map (fun n => -(n : Int))
  | '+' :: rest => (digitsToNat rest).map (fun n => (n : Int))
  | cs => (digitsToNat cs).map (fun n => (n : Int))

/-- Digit-and-one-dot parse for the fractional forms accepted by `float(s)`. -/
def parseUnsignedFloat (cs : List Char) : Option Rat :=
  match cs.splitOn '.' with
  | [whole] => (digitsToNat whole).map (fun n => (n : Rat))
  | [whole, frac] =>
    if whole = [] ∧ frac = [] then none
    else
      match digitsToNat (whole ++ frac), frac.length with
      | some n, k =>
        if (whole = [] ∨ whole.all Char.isDigit) ∧
            (frac = [] ∨ frac.all Char.isDigit) then
          some ((n : Rat) / ((10 : Rat) ^ k))
        else none
      | none, _ =>
        if frac = [] then (digitsToNat whole).map (fun n => (n : Rat))
        else if whole = [] then
          (digitsToNat frac).map (fun n => (n : Rat) / ((10 : Rat) ^ frac.length))
        else none
  | _ => none

/-- Models the Python built-in `float(s)`: optional sign, digits with at most
one decimal point (exponents, `inf` and `nan` are not modelled; the claims do
not exercise them). -/
def pyParseFloat (s : String) : Option Rat :=
  match s.toList with
  | '-' :: rest => (parseUnsignedFloat rest).map (fun q => -q)
  | '+' :: rest => parseUnsignedFloat rest
  | cs => parseUnsignedFloat cs

/-- Coercion of the replacement literal to the Python type of the column's
first non-missing value, `type(df[col].dropna().iloc[0])(replacement)`:
`str(s)` and `bool(s)` never fail (`bool` of a string is its non-emptiness),
`int(s)`/`float(s)` fail on unparsable text. -/
def coerceTo (t : PyTy) (s : String) : Option Value :=
  match t with
  | .pyStr => some (.str s)
  | .pyBool => some (.boolV (s ≠ ""))
  | .pyInt => (pyParseInt s).map .int
  | .pyFloat => (pyParseFloat s).map .real

/-- The `Custom fill per column` branch applied to one column
(`test_code4.py` lines 266-270): try
`fillna(type(dropna().iloc[0])(replacement))`; on any exception (no
non-missing value, or failed coercion) fall back to `fillna(replacement)`
with the raw string. -/
def customFillCol (repl : String) (cells : List (Option Value)) :
    List (Option Value) :=
  match (nonMissing cells).head? with
  | some v =>
    match coerceTo (pyTypeOf v) repl with
    | some w => fillWith w cells
    | none => fillWith (.str repl) cells
  | none => fillWith (.str repl) cells

/-- `df.ffill()` on one column, carrying the last non-missing value. -/
def ffillCol (carry : Option Value) : List (Option Value) → List (Option Value)
  | [] => []
  | c :: rest =>
    match c with
    | some v => some v :: ffillCol (some v) rest
    | none => carry :: ffillCol carry rest

/-- `df.bfill()` on one column. -/
def bfillCol (cells : List (Option Value)) : List (Option Value) :=
  (ffillCol none cells.reverse).reverse

/-- The null-handling options of `test_code4.py` (selectbox, lines 222-235).
`custom` carries the per-column replacement strings collected from the text
inputs (only filled, non-empty entries reach the dict). -/
inductive NullStrategy where
  | doNothing
  | dropAny
  | dropAll
  | fillMean
  | fillMedian
  | fillMode
  | ffill
  | bfill
  | custom (pairs : List (String × String))
deriving DecidableEq

/-- The duplicate-handling options of `test_code4.py` (selectbox, lines
277-285). -/
inductive DupStrategy where
  | doNothing
  | keepFirst
  | keepLast
  | subsetSel (names : List String)
deriving DecidableEq

/-- The null-handling step of `test_code4.py`, lines 237-271. -/
def applyNull (df : DataFrame) : NullStrategy → DataFrame
  | .doNothing => df
  | .dropAny => dropAnyNull df
  | .dropAll => dropAllNull df
  | .fillMean =>
    df.map (fun c =>
      if isNumberDtype c.dtype then { c with cells := fillMeanCol c.cells } else c)
  | .fillMedian =>
    df.map (fun c =>
      if isNumberDtype c.dtype then { c with cells := fillMedianCol c.cells } else c)
  | .fillMode => df.map (fun c => { c with cells := fillModeCol c.cells })
  | .ffill => df.map (fun c => { c with cells := ffillCol none c.cells })
  | .bfill => df.map (fun c => { c with cells := bfillCol c.cells })
  | .custom pairs =>
    pairs.foldl (fun acc pr =>
      acc.map (fun c =>
        if c.name = pr.1 then { c with cells := customFillCol pr.2 c.cells } else c)) df

/-- The duplicate-handling step of `test_code4.py`, lines 287-294: the subset
variant runs only when the selected subset is non-empty (`if subset_cols:`). -/
def applyDup (df : DataFrame) : DupStrategy → DataFrame
  | .doNothing => df
  | .keepFirst => dropDupKeepFirst df
  | .keepLast => dropDupKeepLast df
  | .subsetSel names => if names.isEmpty then df else dropDupSubset df names

/-- A cleaning policy: one null strategy and one duplicate strategy. -/
structure Policy where
  nullStrat : NullStrategy
  dupStrat : DupStrategy

/-- The cleaning steps of `test_code4.py` in script order: null handling
(lines 237-271) runs first, duplicate handling (lines 287-294) second. -/
def cleanSteps (p : Policy) : List (DataFrame → DataFrame) :=
  [fun d => applyNull d p.nullStrat, fun d => applyDup d p.dupStrat]

/-- The whole cleaning pass of `test_code4.py`: the script's statements
applied in order to the shared `df`. -/
def clean (df : DataFrame) (p : Policy) : DataFrame :=
  (cleanSteps p).foldl (fun d f => f d) df

/-- The cleaning pass of `test_code2.py`, lines 79-103: there the duplicate
step (`dup_action`) runs BEFORE the null step (`null_strategy`). -/
def cleanVariant2 (df : DataFrame) (ds : DupStrategy) (ns : NullStrategy) :
    DataFrame :=
  applyNull (applyDup df ds) ns

/-!
The column-type heuristic `suggest_dtype` (`test_code4.py`, lines 307-330).

A `Series` carries its pandas dtype plus its cells rendered as strings, since
every check in the fall-through branch runs on `astype(str)` values or on raw
string cells of an object column.  The external collaborators
`pandas.to_datetime` (a permissive multi-format parser) and `Series.sample`
(seeded random selection) are parameters of the embedding: any parser
`String → Bool` and any sampler satisfying `GoodSampler` (a sample of a
requested size `n ≤ ` population is `n` elements drawn from the population;
pandas raises when `n` exceeds the population, which the embedding encodes
as the guarded branch inside `tsSampleRule`).
-/

/-- A pandas Series as seen by `suggest_dtype`: dtype metadata plus cells
(string-rendered values, `none` = missing). -/
structure Series where
  dtype : Dtype
  cells : List (Option String)
deriving DecidableEq

/-- `Series.dropna()` for string cells. -/
def dropnaS (s : Series) : List String :=
  s.cells.filterMap id

/-- `Series.nunique()`: number of distinct non-missing values. -/
def nunique (s : Series) : Nat :=
  (dropnaS s).dedup.length

/-- The requested sample size `min(50, len(series))` — note: `len(series)`
counts ALL cells, missing ones included. -/
def sampleSize (s : Series) : Nat :=
  min 50 s.cells.length

/-- A sampler stands for the seeded `Series.sample(n)` selection. -/
def Sampler : Type :=
  List String → Nat → List String

/-- A sampler is faithful to `Series.sample(n)` when, for `n` at most the
population size, it returns `n` elements of the population. -/
def GoodSampler (smp : Sampler) : Prop :=
  ∀ xs n, n ≤ xs.length → (smp xs n).length = n ∧ ∀ v ∈ smp xs n, v ∈ xs

/-- The deterministic sampler taking the first `n` elements; one valid
realisation of a seeded sample. -/
def takeSample : Sampler :=
  fun xs n => xs.take n

/-- The timestamp probe of `suggest_dtype` (lines 316-320):
`pd.to_datetime(series.dropna().sample(min(50, len(series))), errors="raise")`
inside `try/except`.  When the requested size exceeds the number of
non-missing values, `sample` itself raises and the `except` skips the rule;
otherwise the rule fires iff every sampled value parses (an empty sample
parses vacuously, as `to_datetime` of an empty series succeeds). -/
def tsSampleRule (parse : String → Bool) (smp : Sampler) (s : Series) : Bool :=
  if sampleSize s ≤ (dropnaS s).length then
    (smp (dropnaS s) (sampleSize s)).all parse
  else false

/-- Remove the first occurrence of `'.'` from a character list
(`str.replace(".", "", 1)`). -/
def removeFirstDot : List Char → List Char
  | [] => []
  | c :: rest => if c = '.' then rest else c :: removeFirstDot rest

/-- `str.replace(".", "", 1)` on a string. -/
def stripFirstDot (s : String) : String :=
  String.mk (removeFirstDot s.toList)

/-- The Python `str.isnumeric` test, modelled over ASCII digits: non-empty
and all digits. -/
def pyIsNumeric (s : String) : Bool :=
  !s.toList.isEmpty && s.toList.all Char.isDigit

/-- The numeric-string probe (line 322):
`series.dropna().astype(str).str.replace(".", "", 1).str.isnumeric().all()`;
`.all()` of an empty selection is `True`. -/
def numericStrRule (s : Series) : Bool :=
  (dropnaS s).all (fun v => pyIsNumeric (stripFirstDot v))

/-- The Python `str.lower`, applied character by character. -/
def pyLower (s : String) : String :=
  String.mk (s.toList.map Char.toLower)

/-- The boolean-string probe (line 325):
`series.dropna().astype(str).str.lower().isin([...]).all()`. -/
def boolStrRule (s : Series) : Bool :=
  (dropnaS s).all
    (fun v => ["true", "false", "yes", "no", "0", "1"].contains (pyLower v))

/-- The low-cardinality probe (line 328):
`series.nunique() < (0.05 * len(series))`, the five-percent comparison taken
exactly (`k < len/20`, i.e. `20*k < len`); it is a multiplication, no
division occurs. -/
def categoryRule (s : Series) : Bool :=
  20 * nunique s < s.cells.length

/-- `pd.api.types.is_numeric_dtype`; pandas counts bool dtype as numeric. -/
def isNumericDtype : Dtype → Bool
  | .int64 => true
  | .float64 => true
  | .boolDt => true
  | _ => false

/-- `pd.api.types.is_integer_dtype`. -/
def isIntegerDtype : Dtype → Bool
  | .int64 => true
  | _ => false

/-- `suggest_dtype` (`test_code4.py`, lines 307-330), parameterised by the
external timestamp parser and the seeded sampler.  The returned strings are
the dtype names of the source; they stand for the semantic types
Integer = "int64", Float = "float64", Timestamp = "datetime64[ns]",
Boolean = "bool", Category = "category", Text = "object". -/
def suggest_dtype (parse : String → Bool) (smp : Sampler) (s : Series) :
    String :=
  if isNumericDtype s.dtype then
    if isIntegerDtype s.dtype then "int64" else "float64"
  else if s.dtype = .datetime64 then "datetime64[ns]"
  else if s.dtype = .boolDt then "bool"
  else if tsSampleRule parse smp s then "datetime64[ns]"
  else if numericStrRule s then "float64"
  else if boolStrRule s then "bool"
  else if categoryRule s then "category"
  else "object"

/-- Modelled from the spec: the permissive multi-format timestamp parser
(`pandas.to_datetime` on one value, an external library call, is not part of
this repository).  Modelled as recognition of ISO `YYYY-MM-DD` dates, enough
to separate parse success ("2020-01-01") from failure ("x", "1"). -/
def parseTsIso (s : String) : Bool :=
  match s.toList with
  | [y1, y2, y3, y4, h1, m1, m2, h2, d1, d2] =>
    y1.isDigit && y2.isDigit && y3.isDigit && y4.isDigit &&
    h1 = '-' && m1.isDigit && m2.isDigit && h2 = '-' &&
    d1.isDigit && d2.isDigit &&
    (10 * (m1.toNat - 48) + (m2.toNat - 48) ≥ 1) &&
    (10 * (m1.toNat - 48) + (m2.toNat - 48) ≤ 12) &&
    (10 * (d1.toNat - 48) + (d2.toNat - 48) ≥ 1) &&
    (10 * (d1.toNat - 48) + (d2.toNat - 48) ≤ 31)
  | _ => false

/-!
The chart-rendering loop of `test_code4.py`, lines 390-409.
-/

/-- The chart kinds offered by the selectbox (line 376). -/
inductive ChartKind where
  | bar
  | line
  | scatter
  | histogram
  | box
deriving DecidableEq

/-- One chart configuration tuple as collected by the loop at lines 378-384;
axes and color hold either a column name or the sentinel "None". -/
structure ChartConfig where
  ckind : ChartKind
  x : String
  y : String
  color : String
deriving DecidableEq

/-- What one iteration of the rendering loop produces: a figure handed to the
plotting library, or a structured skip warning (`st.warning`). -/
inductive RenderOutcome where
  | chart (k : ChartKind) (x y : String) (color : Option String)
  | warn (msg : String)
deriving DecidableEq

/-- One iteration of the chart loop (lines 396-409): a figure is built only
when both x and y differ from "None", whatever the kind; otherwise the chart
is skipped with a warning.  The color argument becomes `None` when the
sentinel was chosen. -/
def renderChart (cfg : ChartConfig) : RenderOutcome :=
  if cfg.x ≠ "None" ∧ cfg.y ≠ "None" then
    .chart cfg.ckind cfg.x cfg.y
      (if cfg.color = "None" then none else some cfg.color)
  else
    .warn "skipped: x or y axis not specified"

/-- The axis selectboxes (lines 381-382) offer `["None"] + list(df.columns)`:
a well-formed configuration draws x and y from that list. -/
def configFromCols (cols : List String) (cfg : ChartConfig) : Prop :=
  cfg.x ∈ "None" :: cols ∧ cfg.y ∈ "None" :: cols

/-- Modelled from the spec: the required axes of a chart kind — both x and y
for two-axis kinds, at least one axis for the single-axis kinds histogram
and box. -/
def requiredAxesSpec (cfg : ChartConfig) : Prop :=
  match cfg.ckind with
  | .histogram => cfg.x ≠ "None" ∨ cfg.y ≠ "None"
  | .box => cfg.x ≠ "None" ∨ cfg.y ≠ "None"
  | _ => cfg.x ≠ "None" ∧ cfg.y ≠ "None"

/-- Models `st.selectbox(label, options)` (external streamlit behavior), as
used by the plot loop of `piping_data.py`, whose axis selectboxes offer
exactly the numeric columns: the pick is one of the options (an out-of-range
index falls back to the first option, streamlit's default selection); with
an empty options list streamlit returns None. -/
def selectboxChoice (options : List String) (i : Nat) : Option String :=
  match options with
  | [] => none
  | o :: rest => some ((o :: rest).getD i o)

/-- The Histogram branch of `piping_data.py` (lines 160-162):
`px.histogram(df, x=x_col)` followed by `st.plotly_chart` — the figure is
built and rendered unconditionally; there is no axis validation and no
warning path.  An absent axis (the selectbox returned None) is modelled by
the "None" sentinel; the y slot is not passed. -/
def pipingHistogram (xChoice : Option String) : RenderOutcome :=
  .chart .histogram (xChoice.getD "None") "None" none

/-- The Box Plot branch of `piping_data.py` (lines 164-166):
`px.box(df, y=y_col)` rendered unconditionally; only the y axis is passed. -/
def pipingBox (yChoice : Option String) : RenderOutcome :=
  .chart .box "None" (yChoice.getD "None") none

/-!
Helper lemmas shared by the claim theorems.
-/

/-- Taking the first `n` elements is a faithful sample selection. -/
theorem takeSample_good : GoodSampler takeSample := by
  intro xs n h
  constructor
  · simp [takeSample]
    omega
  · intro v hv
    exact List.take_subset n xs hv

/-- `maxBy` of a non-empty list returns an element maximising `f`; of the
empty list it returns `none`. -/
theorem maxBy_spec (f : Value → Nat) (l : List Value) :
    (l = [] ∧ maxBy f l = none) ∨
    (∃ m, maxBy f l = some m ∧ m ∈ l ∧ ∀ v ∈ l, f v ≤ f m) := by
  induction l with
  | nil => exact Or.inl ⟨rfl, rfl⟩
  | cons a t ih =>
    right
    rcases ih with ⟨ht, hm⟩ | ⟨m, hm, hmem, hle⟩
    · subst ht
      refine ⟨a, rfl, List.mem_singleton.mpr rfl, ?_⟩
      intro v hv
      rw [List.mem_singleton.mp hv]
    · by_cases hc : f m ≤ f a
      · refine ⟨a, ?_, List.mem_cons_self a t, ?_⟩
        · simp [maxBy, hm, hc]
        · intro v hv
          rcases List.mem_cons.mp hv with h | h
          · rw [h]
          · exact le_trans (hle v h) hc
      · refine ⟨m, ?_, List.mem_cons_of_mem a hmem, ?_⟩
        · simp [maxBy, hm, hc]
        · intro v hv
          rcases List.mem_cons.mp hv with h | h
          · rw [h]; exact le_of_not_le hc
          · exact hle v h

/-- Cell lookup after a constant fill. -/
theorem fillWith_get? (v : Value) (cells : List (Option Value)) (i : Nat) :
    (fillWith v cells).get? i = (cells.get? i).map (fun c => some (c.getD v)) := by
  simp [fillWith]

/-- On an object-dtype series, `suggest_dtype` is the fall-through chain of
the four string probes. -/
theorem suggest_objectDt (parse : String → Bool) (smp : Sampler) (s : Series)
    (hd : s.dtype = .objectDt) :
    suggest_dtype parse smp s =
      if tsSampleRule parse smp s then "datetime64[ns]"
      else if numericStrRule s then "float64"
      else if boolStrRule s then "bool"
      else if categoryRule s then "category"
      else "object" := by
  simp [suggest_dtype, hd, isNumericDtype]

/-- When the timestamp probe fails on an object-dtype series, `suggest_dtype`
cannot answer Timestamp. -/
theorem suggest_ne_ts (parse : String → Bool) (smp : Sampler) (s : Series)
    (hd : s.dtype = .objectDt) (hts : tsSampleRule parse smp s = false) :
    suggest_dtype parse smp s ≠ "datetime64[ns]" := by
  rw [suggest_objectDt parse smp s hd, hts]
  cases h1 : numericStrRule s <;> cases h2 : boolStrRule s <;>
    cases h3 : categoryRule s <;> simp

/-!
Claim theorems.
-/

/-- Claim C1, counterexample: an object column consisting of one missing
value has zero non-missing values, yet `suggest_dtype` returns "float64"
(Float), not "object" (Text): the vacuously true numeric-string probe fires.
-/
theorem C1_counterexample :
    dropnaS ⟨.objectDt, [none]⟩ = [] ∧
    suggest_dtype parseTsIso takeSample ⟨.objectDt, [none]⟩ ≠ "object" := by
  constructor
  · rfl
  · decide

/-- Claim C1, amended: on an object column with zero non-missing values
`suggest_dtype` never raises (it is total) but does not return Text: a
zero-length column returns "datetime64[ns]" (Timestamp; the empty sample
parses vacuously) and an all-missing column of positive length returns
"float64" (Float; the sampling raises internally and the numeric-string
probe is vacuously true). -/
theorem C1_all_missing (parse : String → Bool) (smp : Sampler) (s : Series)
    (hg : GoodSampler smp) (hd : s.dtype = .objectDt) (hm : dropnaS s = []) :
    suggest_dtype parse smp s =
      if s.cells.length = 0 then "datetime64[ns]" else "float64" := by
  rw [suggest_objectDt parse smp s hd]
  cases hlen : s.cells.length with
  | zero =>
    have hss : sampleSize s = 0 := by simp [sampleSize, hlen]
    have h0 : smp [] 0 = [] :=
      List.length_eq_zero.mp (hg [] 0 (le_refl 0)).1
    have hts : tsSampleRule parse smp s = true := by
      unfold tsSampleRule
      rw [hm, hss]
      simp [h0]
    rw [hts]
    simp
  | succ n =>
    have hts : tsSampleRule parse smp s = false := by
      unfold tsSampleRule
      rw [hm]
      have : ¬ sampleSize s ≤ ([] : List String).length := by
        simp [sampleSize, hlen]
      rw [if_neg this]
    have hnum : numericStrRule s = true := by
      unfold numericStrRule
      rw [hm]
      rfl
    rw [hts, hnum]
    simp

/-- Claim C1, witness of the amended statement at concrete columns. -/
theorem C1_witness :
    suggest_dtype parseTsIso takeSample ⟨.objectDt, [none]⟩ = "float64" ∧
    suggest_dtype parseTsIso takeSample ⟨.objectDt, []⟩ = "datetime64[ns]" := by
  have h1 := C1_all_missing parseTsIso takeSample ⟨.objectDt, [none]⟩
    takeSample_good rfl rfl
  have h2 := C1_all_missing parseTsIso takeSample ⟨.objectDt, []⟩
    takeSample_good rfl rfl
  exact ⟨by simpa using h1, by simpa using h2⟩

/-- Claim C2, counterexample: the column ["1", "2"] is entirely numeric
strings with no fractional part, yet `suggest_dtype` returns "float64"
(Float), not "int64" (Integer): the string probe at line 322 always answers
"float64". -/
theorem C2_counterexample :
    numericStrRule ⟨.objectDt, [some "1", some "2"]⟩ = true ∧
    (dropnaS ⟨.objectDt, [some "1", some "2"]⟩).any
      (fun v => v.toList.contains '.') = false ∧
    suggest_dtype parseTsIso takeSample ⟨.objectDt, [some "1", some "2"]⟩ ≠
      "int64" := by
  decide

/-- Claim C2, amended: on an object column whose non-missing values are all
numeric strings (after stripping one dot), and on which the timestamp probe
does not fire, `suggest_dtype` returns "float64" (Float) regardless of
fractional parts; "int64" (Integer) is returned only when the series dtype
is already integer. -/
theorem C2_numeric_strings (parse : String → Bool) (smp : Sampler)
    (s : Series) (hd : s.dtype = .objectDt)
    (hnum : numericStrRule s = true)
    (hts : tsSampleRule parse smp s = false) :
    suggest_dtype parse smp s = "float64" ∧
    ∀ t : Series, t.dtype = .int64 → suggest_dtype parse smp t = "int64" := by
  constructor
  · rw [suggest_objectDt parse smp s hd, hts, hnum]
    simp
  · intro t ht
    simp [suggest_dtype, ht, isNumericDtype, isIntegerDtype]

/-- Claim C2, witness of the amended statement at concrete columns. -/
theorem C2_witness :
    suggest_dtype parseTsIso takeSample ⟨.objectDt, [some "1", some "2"]⟩ =
      "float64" ∧
    suggest_dtype parseTsIso takeSample ⟨.int64, [some "1"]⟩ = "int64" := by
  have h := C2_numeric_strings parseTsIso takeSample
    ⟨.objectDt, [some "1", some "2"]⟩ rfl (by decide) (by decide)
  exact ⟨h.1, h.2 ⟨.int64, [some "1"]⟩ rfl⟩

/-- Claim C3, counterexample: the `test_code2.py` variant runs duplicate
handling before null handling, so with forward fill and keep-first
deduplication on the one-column frame [x, missing] its result (two rows)
differs from deduplication applied to the null-normalized frame (one row).
-/
theorem C3_ordering_counterexample :
    cleanVariant2 [⟨"a", .objectDt, [some (.str "x"), none]⟩]
        .keepFirst .ffill ≠
      applyDup (applyNull [⟨"a", .objectDt, [some (.str "x"), none]⟩]
        .ffill) .keepFirst := by
  decide

/-- Claim C3, amended: in the `test_code4.py` pipeline (and likewise
`test_code1.py` and `piping_data.py`) the null-handling step runs before the
duplicate-handling step, so for every frame and policy requesting both, the
result equals deduplication applied to the null-normalized frame; the
`test_code2.py` variant applies the two steps in the opposite order. -/
theorem C3_order_in_code4 (df : DataFrame) (p : Policy)
    (_h1 : p.nullStrat ≠ .doNothing) (_h2 : p.dupStrat ≠ .doNothing) :
    clean df p = applyDup (applyNull df p.nullStrat) p.dupStrat := rfl

/-- Claim C3, witness of the amended statement at a concrete frame and
policy. -/
theorem C3_witness :
    clean [⟨"a", .objectDt, [some (.str "x"), none]⟩] ⟨.ffill, .keepFirst⟩ =
      applyDup (applyNull [⟨"a", .objectDt, [some (.str "x"), none]⟩]
        .ffill) .keepFirst :=
  C3_order_in_code4 _ _ (by decide) (by decide)

/-- Claim C4, counterexample: in the column ["2020-01-01", missing] every
non-missing value (one value, fewer than 50) parses as a timestamp, yet
`suggest_dtype` answers "object", not "datetime64[ns]": the requested sample
size `min(50, len(series))` counts missing cells, exceeds the non-missing
population, and the sampling raises, silently skipping the timestamp rule.
-/
theorem C4_counterexample :
    (dropnaS ⟨.objectDt, [some "2020-01-01", none]⟩).length ≤ 50 ∧
    (dropnaS ⟨.objectDt, [some "2020-01-01", none]⟩).all parseTsIso = true ∧
    suggest_dtype parseTsIso takeSample
      ⟨.objectDt, [some "2020-01-01", none]⟩ = "object" := by
  decide

/-- Claim C4, amended: the timestamp rule requests a sample of size
`min(50, total length including missing cells)`, not of the non-missing
count.  When that size is at most the non-missing count, the sample holds
exactly that many non-missing values and the rule answers Timestamp exactly
when all sampled values parse; when it exceeds the non-missing count (a
column with missing values and fewer than `min(50, len)` non-missing ones),
the sampling raises internally and the rule never answers Timestamp.  The
requested size never exceeds 50, and sampling does not mutate the column
(the embedding is a pure function of it). -/
theorem C4_sampling (parse : String → Bool) (smp : Sampler) (s : Series)
    (hg : GoodSampler smp) (hd : s.dtype = .objectDt) :
    (sampleSize s ≤ (dropnaS s).length →
      (smp (dropnaS s) (sampleSize s)).length = sampleSize s ∧
      (∀ v ∈ smp (dropnaS s) (sampleSize s), v ∈ dropnaS s) ∧
      (suggest_dtype parse smp s = "datetime64[ns]" ↔
        (smp (dropnaS s) (sampleSize s)).all parse = true))
    ∧ ((dropnaS s).length < sampleSize s →
      suggest_dtype parse smp s ≠ "datetime64[ns]")
    ∧ sampleSize s ≤ 50 := by
  refine ⟨?_, ?_, Nat.min_le_left _ _⟩
  · intro h
    refine ⟨(hg _ _ h).1, (hg _ _ h).2, ?_⟩
    cases hall : (smp (dropnaS s) (sampleSize s)).all parse with
    | true =>
      have hts : tsSampleRule parse smp s = true := by
        unfold tsSampleRule
        rw [if_pos h, hall]
      rw [suggest_objectDt parse smp s hd, hts]
      simp
    | false =>
      have hts : tsSampleRule parse smp s = false := by
        unfold tsSampleRule
        rw [if_pos h, hall]
      constructor
      · intro hsug
        exact absurd hsug (suggest_ne_ts parse smp s hd hts)
      · intro hc
        exact Bool.noConfusion hc
  · intro h
    have hts : tsSampleRule parse smp s = false := by
      unfold tsSampleRule
      rw [if_neg (not_le.mpr h)]
    exact suggest_ne_ts parse smp s hd hts

/-- Claim C4, witness of the amended statement: a fully non-missing
timestamp column is recognised. -/
theorem C4_witness :
    suggest_dtype parseTsIso takeSample ⟨.objectDt, [some "2020-01-01"]⟩ =
      "datetime64[ns]" := by
  have h := C4_sampling parseTsIso takeSample
    ⟨.objectDt, [some "2020-01-01"]⟩ takeSample_good rfl
  exact ((h.1 (by decide)).2.2).mpr (by decide)

/-- Claim C5, counterexample: in `piping_data.py` a frame with zero numeric
columns makes the Histogram axis selectbox return None, yet the branch still
renders a chart (`px.histogram(df, x=None)`): a chart is rendered although
its required axis is absent — and names no column of the empty
numeric-column list — and no structured warning is produced. -/
theorem C5_counterexample :
    (∃ k x y c, pipingHistogram (selectboxChoice [] 0) = .chart k x y c ∧
      ¬ requiredAxesSpec ⟨k, x, y, "None"⟩ ∧ ¬ x ∈ ([] : List String)) ∧
    ∀ m, pipingHistogram (selectboxChoice [] 0) ≠ .warn m := by
  constructor
  · refine ⟨.histogram, "None", "None", none, rfl, ?_, ?_⟩
    · intro h
      rcases h with h | h
      · exact h rfl
      · exact h rfl
    · simp
  · intro m h
    exact RenderOutcome.noConfusion h

/-- Claim C5, amended: in the generic chart loop (`test_code4.py`,
`test_code2.py`) a chart is rendered only if both x and y are specified and
name existing columns — which implies the spec's per-kind required axes —
and otherwise the chart is skipped with a structured warning, never an
exception; but the single-axis Histogram/Box branches of `piping_data.py`
perform no axis validation at all: they render unconditionally with
whatever the axis selectbox returned (None when the frame has no numeric
columns) and never produce a warning. -/
theorem C5_chart_axes (cols : List String) (cfg : ChartConfig)
    (hc : configFromCols cols cfg) :
    (∀ k x y c, renderChart cfg = .chart k x y c →
      requiredAxesSpec cfg ∧ x ∈ cols ∧ y ∈ cols)
    ∧ (¬ requiredAxesSpec cfg → ∃ m, renderChart cfg = .warn m)
    ∧ (∀ choice : Option String,
      pipingHistogram choice =
        .chart .histogram (choice.getD "None") "None" none ∧
      pipingBox choice = .chart .box "None" (choice.getD "None") none ∧
      (∀ m, pipingHistogram choice ≠ .warn m) ∧
      (∀ m, pipingBox choice ≠ .warn m)) := by
  refine ⟨?_, ?_, ?_⟩
  · intro k x y c h
    unfold renderChart at h
    by_cases hxy : cfg.x ≠ "None" ∧ cfg.y ≠ "None"
    · rw [if_pos hxy] at h
      cases h
      refine ⟨?_, ?_, ?_⟩
      · unfold requiredAxesSpec
        cases cfg.ckind <;> simp [hxy.1, hxy.2]
      · rcases List.mem_cons.mp hc.1 with h' | h'
        · exact absurd h' hxy.1
        · exact h'
      · rcases List.mem_cons.mp hc.2 with h' | h'
        · exact absurd h' hxy.2
        · exact h'
    · rw [if_neg hxy] at h
      exact RenderOutcome.noConfusion h
  · intro hreq
    unfold renderChart
    by_cases hxy : cfg.x ≠ "None" ∧ cfg.y ≠ "None"
    · exfalso
      apply hreq
      unfold requiredAxesSpec
      cases cfg.ckind <;> simp [hxy.1, hxy.2]
    · rw [if_neg hxy]
      exact ⟨_, rfl⟩
  · intro choice
    exact ⟨rfl, rfl, fun m h => RenderOutcome.noConfusion h,
      fun m h => RenderOutcome.noConfusion h⟩

/-- Claim C5, witness of the amended statement at a concrete configuration:
a histogram with no axis specified is skipped with a warning by the generic
loop. -/
theorem C5_witness :
    ∃ m, renderChart ⟨.histogram, "None", "None", "None"⟩ = .warn m :=
  (C5_chart_axes ["a", "b"] ⟨.histogram, "None", "None", "None"⟩
    (by constructor <;> decide)).2.1 (by simp [requiredAxesSpec])

/-- Claim C6: under the custom per-column fill, non-missing cells are
untouched; every missing cell receives the replacement literal coerced to
the Python type of the column's first non-missing value when that coercion
succeeds, and the raw literal as text when the coercion fails or the column
has no non-missing value at all; the operation is total (never raises) and
preserves the column's length. -/
theorem C6_custom_fill (repl : String) (cells : List (Option Value)) :
    (∀ i v, cells.get? i = some (some v) →
      (customFillCol repl cells).get? i = some (some v))
    ∧ (∀ i v w, cells.get? i = some none →
      (nonMissing cells).head? = some v →
      coerceTo (pyTypeOf v) repl = some w →
      (customFillCol repl cells).get? i = some (some w))
    ∧ (∀ i v, cells.get? i = some none →
      (nonMissing cells).head? = some v →
      coerceTo (pyTypeOf v) repl = none →
      (customFillCol repl cells).get? i = some (some (.str repl)))
    ∧ (∀ i, cells.get? i = some none →
      (nonMissing cells).head? = none →
      (customFillCol repl cells).get? i = some (some (.str repl)))
    ∧ (customFillCol repl cells).length = cells.length := by
  cases hh : (nonMissing cells).head? with
  | none =>
    have hdef : customFillCol repl cells = fillWith (.str repl) cells := by
      unfold customFillCol
      rw [hh]
    refine ⟨?_, ?_, ?_, ?_, ?_⟩
    · intro i v hi
      rw [hdef, fillWith_get?, hi]
      rfl
    · intro i v w _ hv _
      exact Option.noConfusion hv
    · intro i v _ hv
      exact fun _ => Option.noConfusion hv
    · intro i hi _
      rw [hdef, fillWith_get?, hi]
      rfl
    · rw [hdef]
      simp [fillWith]
  | some v0 =>
    cases hcoe : coerceTo (pyTypeOf v0) repl with
    | none =>
      have hdef : customFillCol repl cells = fillWith (.str repl) cells := by
        unfold customFillCol
        rw [hh]
        show (match coerceTo (pyTypeOf v0) repl with
          | some w => fillWith w cells
          | none => fillWith (Value.str repl) cells) = fillWith (.str repl) cells
        rw [hcoe]
      refine ⟨?_, ?_, ?_, ?_, ?_⟩
      · intro i v hi
        rw [hdef, fillWith_get?, hi]
        rfl
      · intro i v w hi hv hw
        rw [← Option.some.inj hv] at hw
        rw [hcoe] at hw
        exact Option.noConfusion hw
      · intro i v hi hv _
        rw [hdef, fillWith_get?, hi]
        rfl
      · intro i _ hv
        exact Option.noConfusion hv
      · rw [hdef]
        simp [fillWith]
    | some w0 =>
      have hdef : customFillCol repl cells = fillWith w0 cells := by
        unfold customFillCol
        rw [hh]
        show (match coerceTo (pyTypeOf v0) repl with
          | some w => fillWith w cells
          | none => fillWith (Value.str repl) cells) = fillWith w0 cells
        rw [hcoe]
      refine ⟨?_, ?_, ?_, ?_, ?_⟩
      · intro i v hi
        rw [hdef, fillWith_get?, hi]
        rfl
      · intro i v w hi hv hw
        rw [← Option.some.inj hv] at hw
        rw [hcoe] at hw
        rw [hdef, fillWith_get?, hi, ← Option.some.inj hw]
        rfl
      · intro i v hi hv hw
        rw [← Option.some.inj hv] at hw
        rw [hcoe] at hw
        exact Option.noConfusion hw
      · intro i _ hv
        exact Option.noConfusion hv
      · rw [hdef]
        simp [fillWith]

/-- Claim C6, witness at concrete columns: an int column coerces "7" to the
integer 7; a column with zero non-missing values stores "x" as raw text and
nothing raises. -/
theorem C6_witness :
    (customFillCol "7" [some (.int 1), none]).get? 1 =
      some (some (.int 7)) ∧
    (customFillCol "x" [(none : Option Value)]).get? 0 =
      some (some (.str "x")) := by
  have h1 := C6_custom_fill "7" [some (.int 1), none]
  have h2 := C6_custom_fill "x" [(none : Option Value)]
  exact ⟨h1.2.1 1 (.int 1) (.int 7) rfl rfl (by decide),
    h2.2.2.2.1 0 rfl rfl⟩

/-- Claim C7: under the mode fill, a column with zero non-missing values is
left entirely unchanged (the internal `mode()[0]` raises and the `except`
swallows it), non-missing cells are untouched, and in a column with at least
one non-missing value every missing cell is replaced by the mode, a value of
maximal frequency among the non-missing values. -/
theorem C7_fill_mode (cells : List (Option Value)) :
    (nonMissing cells = [] → fillModeCol cells = cells)
    ∧ (∀ i v, cells.get? i = some (some v) →
      (fillModeCol cells).get? i = some (some v))
    ∧ (nonMissing cells ≠ [] → ∃ m, pdMode (nonMissing cells) = some m ∧
      (∀ v ∈ nonMissing cells,
        (nonMissing cells).count v ≤ (nonMissing cells).count m) ∧
      ∀ i, cells.get? i = some none →
        (fillModeCol cells).get? i = some (some m)) := by
  refine ⟨?_, ?_, ?_⟩
  · intro h
    unfold fillModeCol
    have hnone : pdMode (nonMissing cells) = none := by
      rw [h]
      rfl
    rw [hnone]
    simp
  · intro i v hi
    unfold fillModeCol
    by_cases ha : cells.any (fun c => c.isNone) = true
    · rw [if_pos ha]
      cases hm : pdMode (nonMissing cells) with
      | none => exact hi
      | some m =>
        rw [fillWith_get?, hi]
        rfl
    · rw [if_neg ha]
      exact hi
  · intro h
    rcases maxBy_spec (fun v => (nonMissing cells).count v) (nonMissing cells)
      with ⟨he, _⟩ | ⟨m, hm, _, hle⟩
    · exact absurd he h
    · refine ⟨m, hm, hle, ?_⟩
      intro i hi
      have hmemn : none ∈ cells := List.get?_mem hi
      have ha : cells.any (fun c => c.isNone) = true :=
        List.any_eq_true.mpr ⟨none, hmemn, rfl⟩
      unfold fillModeCol
      rw [if_pos ha]
      have hpd : pdMode (nonMissing cells) = some m := hm
      rw [hpd, fillWith_get?, hi]
      rfl

/-- Claim C7, witness at concrete columns: the missing cell of
[a, b, a, missing] becomes the mode a; an all-missing column is unchanged.
-/
theorem C7_witness :
    (fillModeCol [some (.str "a"), some (.str "b"), some (.str "a"), none]).get? 3 =
      some (some (.str "a")) ∧
    fillModeCol [(none : Option Value), none] = [none, none] := by
  have h1 := C7_fill_mode [some (.str "a"), some (.str "b"), some (.str "a"), none]
  have h2 := C7_fill_mode [(none : Option Value), none]
  constructor
  · rcases h1.2.2 (by decide) with ⟨m, hm, _, hfill⟩
    have hv : m = .str "a" := by
      have hc : pdMode (nonMissing
          [some (.str "a"), some (.str "b"), some (.str "a"), none]) =
          some (.str "a") := by decide
      rw [hc] at hm
      exact (Option.some.inj hm).symm
    have hres := hfill 3 (by decide)
    rw [hv] at hres
    exact hres
  · exact h2.1 (by decide)

/-- Claim C8: once a column reaches the low-cardinality rule (the object
branch with the timestamp, numeric and boolean probes all failed),
`suggest_dtype` answers "category" exactly when the distinct non-missing
count is below five percent of the row count (taken exactly:
`20 * nunique < len`); the threshold uses a multiplication, and on a
zero-row column the rule is simply false — no division by zero can occur. -/
theorem C8_category_threshold (parse : String → Bool) (smp : Sampler)
    (s : Series) (hd : s.dtype = .objectDt)
    (hts : tsSampleRule parse smp s = false)
    (hnum : numericStrRule s = false) (hb : boolStrRule s = false) :
    (suggest_dtype parse smp s = "category" ↔
      20 * nunique s < s.cells.length)
    ∧ ∀ t : Series, t.cells.length = 0 → categoryRule t = false := by
  constructor
  · rw [suggest_objectDt parse smp s hd, hts, hnum, hb]
    simp only [Bool.false_eq_true, if_false]
    cases hcat : categoryRule s with
    | false =>
      simp only [categoryRule, decide_eq_false_iff_not] at hcat
      simp only [Bool.false_eq_true, if_false]
      constructor
      · intro habs
        exact absurd habs (by decide)
      · intro hlt
        exact absurd hlt hcat
    | true =>
      simp only [categoryRule, decide_eq_true_eq] at hcat
      simp
      exact hcat
  · intro t h
    simp [categoryRule, h]

/-- Claim C8, witness at a concrete column: 21 rows of the single value "x"
reach the rule and are categorised (20 · 1 < 21). -/
theorem C8_witness :
    suggest_dtype parseTsIso takeSample
      ⟨.objectDt, List.replicate 21 (some "x")⟩ = "category" := by
  have h := C8_category_threshold parseTsIso takeSample
    ⟨.objectDt, List.replicate 21 (some "x")⟩ rfl
    (by decide) (by decide) (by decide)
  exact h.1.mpr (by decide)

/-- Claim C9: `suggest_dtype` is a pure function of the parser, the seeded
sampler and the column: two invocations on equal inputs return the same
suggestion. -/
theorem C9_deterministic (parse : String → Bool) (smp : Sampler)
    (s t : Series) (h : s = t) :
    suggest_dtype parse smp s = suggest_dtype parse smp t := by
  rw [h]

/-- Claim C9, witness at a concrete column. -/
theorem C9_witness :
    suggest_dtype parseTsIso takeSample ⟨.objectDt, [some "a"]⟩ =
      suggest_dtype parseTsIso takeSample ⟨.objectDt, [some "a"]⟩ :=
  C9_deterministic parseTsIso takeSample _ _ rfl

/-- Claim C10: when the drop-on-subset duplicate strategy is chosen with an
empty subset of column names, the `if subset_cols:` guard makes the step a
no-op: the frame is returned unchanged, no rows are dropped and nothing is
raised. -/
theorem C10_empty_subset (df : DataFrame) :
    applyDup df (.subsetSel []) = df := rfl

end DataPipeline
